import Mathlib

set_option maxRecDepth 4000

/-!
Verification development for the posture-monitoring script `main.py`.

The script has two verifiable layers:

* `calculate_angle` (main.py lines 11-22): a pure geometric function on three
  2D points, embedded here over the real numbers.
* the main loop's calibration / classification / alert state machine
  (main.py lines 40-120): global mutable state threaded through one `step`
  per camera frame, embedded here as explicit state passing over `ℚ`
  (angles and timestamps are only compared, added and averaged, so the
  rational numbers model the arithmetic exactly).

Per-frame I/O that the claims talk about (pose detected or not, current
wall-clock time, existence of `alert.wav`) is supplied as a `FrameInput`;
observable side effects (console logs, the sound, the on-screen status
text) are collected in a `FrameOutput`.
-/

namespace Posture

/-! ## Angle calculator (main.py lines 11-22), over ℝ -/

/-- A 2D point / vector, as in the numpy arrays of `calculate_angle`. -/
abbrev Pt := ℝ × ℝ

/-- `a - b`, componentwise (numpy array subtraction). -/
def vsub (a b : Pt) : Pt := (a.1 - b.1, a.2 - b.2)

/-- `np.dot` for 2D vectors. -/
def dot (u v : Pt) : ℝ := u.1 * v.1 + u.2 * v.2

/-- `np.linalg.norm` for a 2D vector. -/
noncomputable def pnorm (u : Pt) : ℝ := Real.sqrt (u.1 ^ 2 + u.2 ^ 2)

/-- The `1e-6` epsilon added to the denominator in `calculate_angle`. -/
noncomputable def eps : ℝ := 1 / 1000000

/-- `np.clip x lo hi` = `min (max x lo) hi`. -/
def clip (x lo hi : ℝ) : ℝ := min (max x lo) hi

/-- `np.degrees`: radians to degrees. -/
noncomputable def degrees (x : ℝ) : ℝ := x * 180 / Real.pi

/-- `calculate_angle(a, b, c)` from main.py lines 11-22:
`cosine = dot(a-b, c-b) / (|a-b| * |c-b| + 1e-6)`,
`angle = arccos(clip(cosine, -1, 1))`, returned in degrees. -/
noncomputable def calculate_angle (a b c : Pt) : ℝ :=
  degrees (Real.arccos (clip
    (dot (vsub a b) (vsub c b) / (pnorm (vsub a b) * pnorm (vsub c b) + eps))
    (-1) 1))

/-! ## Main-loop state machine (main.py lines 40-120), over ℚ -/

/-- The global mutable state of main.py (lines 41-51): the calibration
sample lists, the sample counter, the calibrated flag, the two thresholds
and the last-alert timestamp. -/
structure PostureState where
  calibration_shoulder_angles : List ℚ
  calibration_neck_angles : List ℚ
  calibration_frames : ℕ
  is_calibrated : Bool
  shoulder_threshold : ℚ
  neck_threshold : ℚ
  last_alert_time : ℚ
deriving DecidableEq

/-- Initial state (main.py lines 41-50): empty sample lists, counter 0,
not calibrated, thresholds 0, `last_alert_time = 0`. -/
def initState : PostureState :=
  { calibration_shoulder_angles := []
    calibration_neck_angles := []
    calibration_frames := 0
    is_calibrated := false
    shoulder_threshold := 0
    neck_threshold := 0
    last_alert_time := 0 }

/-- `alert_cooldown = 10` seconds (main.py line 51). -/
def alert_cooldown : ℚ := 10

/-- What one loop iteration reads from the outside world: whether the pose
model detected a body, the two angles computed for this frame, the value of
`time.time()`, and whether `alert.wav` exists. -/
structure FrameInput where
  pose_detected : Bool
  shoulder_angle : ℚ
  neck_angle : ℚ
  current_time : ℚ
  sound_file_exists : Bool
deriving DecidableEq

/-- The observable effects of one loop iteration: whether a calibration
sample was appended, whether the calibration-complete line was printed,
the status text drawn on screen (`none` when no status is drawn), whether
the poor-posture alert line was printed, and whether the sound played. -/
structure FrameOutput where
  sample_appended : Bool
  calibration_logged : Bool
  status : Option String
  alert_logged : Bool
  sound_played : Bool
deriving DecidableEq

/-- `np.mean` of a list of rationals: sum divided by length. -/
def listMean (l : List ℚ) : ℚ := l.sum / l.length

/-- The calibration branch of the loop body (main.py lines 83-94): while
not calibrated and fewer than 30 samples, append this frame's angle pair
and bump the counter; on the next pose frame, set both thresholds to
`mean - 10`, set the calibrated flag and print the completion line.
Returns the updated state, whether a sample was appended, and whether the
completion line was printed. -/
def calibrationBranch (s : PostureState) (f : FrameInput) :
    PostureState × Bool × Bool :=
  if s.is_calibrated = false ∧ s.calibration_frames < 30 then
    ({ s with
        calibration_shoulder_angles :=
          s.calibration_shoulder_angles ++ [f.shoulder_angle]
        calibration_neck_angles :=
          s.calibration_neck_angles ++ [f.neck_angle]
        calibration_frames := s.calibration_frames + 1 }, true, false)
  else if s.is_calibrated = false then
    ({ s with
        shoulder_threshold := listMean s.calibration_shoulder_angles - 10
        neck_threshold := listMean s.calibration_neck_angles - 10
        is_calibrated := true }, false, true)
  else
    (s, false, false)

/-- One iteration of the main loop for a frame (main.py lines 65-120).
If no pose is detected the whole body is skipped. Otherwise the
calibration branch runs first, then — against the updated state, exactly
as in the source, where the finalizing assignment to `is_calibrated`
precedes the `if is_calibrated:` check — the posture-detection branch:
status is "Poor Posture" when either angle is below its threshold, else
"Good Posture"; on a poor frame, if `current_time - last_alert_time >
alert_cooldown`, the alert line is printed, the sound plays when the file
exists, and `last_alert_time` is set to `current_time`. -/
def step (s : PostureState) (f : FrameInput) : PostureState × FrameOutput :=
  if f.pose_detected = true then
    let cb := calibrationBranch s f
    let s1 := cb.1
    if s1.is_calibrated = true then
      if f.shoulder_angle < s1.shoulder_threshold ∨
          f.neck_angle < s1.neck_threshold then
        if f.current_time - s1.last_alert_time > alert_cooldown then
          ({ s1 with last_alert_time := f.current_time },
           { sample_appended := cb.2.1
             calibration_logged := cb.2.2
             status := some "Poor Posture"
             alert_logged := true
             sound_played := f.sound_file_exists })
        else
          (s1,
           { sample_appended := cb.2.1
             calibration_logged := cb.2.2
             status := some "Poor Posture"
             alert_logged := false
             sound_played := false })
      else
        (s1,
         { sample_appended := cb.2.1
           calibration_logged := cb.2.2
           status := some "Good Posture"
           alert_logged := false
           sound_played := false })
    else
      (s1,
       { sample_appended := cb.2.1
         calibration_logged := cb.2.2
         status := none
         alert_logged := false
         sound_played := false })
  else
    (s,
     { sample_appended := false
       calibration_logged := false
       status := none
       alert_logged := false
       sound_played := false })

/-- Run the loop from a given state over a list of frame inputs, collecting
the per-frame outputs. -/
def runFrom (s : PostureState) : List FrameInput → PostureState × List FrameOutput
  | [] => (s, [])
  | f :: fs =>
    let p := step s f
    let r := runFrom p.1 fs
    (r.1, p.2 :: r.2)

/-- A whole session: run from the initial state. -/
def run (fs : List FrameInput) : PostureState × List FrameOutput :=
  runFrom initState fs

/-- The state invariant maintained by the main loop: the sample lists have
exactly `calibration_frames` entries, the counter never exceeds 30, the
calibrated flag implies a full 30 samples, and each threshold is 0 before
calibration and `mean(samples) - 10` after. -/
def Inv (s : PostureState) : Prop :=
  s.calibration_shoulder_angles.length = s.calibration_frames ∧
  s.calibration_neck_angles.length = s.calibration_frames ∧
  s.calibration_frames ≤ 30 ∧
  (s.is_calibrated = true → s.calibration_frames = 30) ∧
  s.shoulder_threshold =
    (if s.is_calibrated = true
      then listMean s.calibration_shoulder_angles - 10 else 0) ∧
  s.neck_threshold =
    (if s.is_calibrated = true
      then listMean s.calibration_neck_angles - 10 else 0)

/-! ### Concrete inputs used by examples, witnesses and counterexamples -/

/-- A pose-detected frame with both angles 80 degrees, at time 0. -/
def constFrame80 : FrameInput :=
  { pose_detected := true, shoulder_angle := 80, neck_angle := 80
    current_time := 0, sound_file_exists := false }

/-- 31 frames at angle 80: 30 collection frames plus the finalizing frame. -/
def calibFrames31 : List FrameInput := List.replicate 31 constFrame80

/-- A pose-detected poor-posture frame (both angles 60) at time `t`, with
no sound file present. -/
def poorAt (t : ℚ) : FrameInput :=
  { pose_detected := true, shoulder_angle := 60, neck_angle := 60
    current_time := t, sound_file_exists := false }

/-- 30 collection frames at angle 80 followed by a poor-posture frame at
time 0. -/
def calibThenPoor0 : List FrameInput :=
  List.replicate 30 constFrame80 ++ [poorAt 0]

/-- 30 collection frames at angle 80 followed by a poor-posture frame at
time 100. -/
def calibThenPoor100 : List FrameInput :=
  List.replicate 30 constFrame80 ++ [poorAt 100]

/-- The state reached after calibrating on 30 frames of angle 80: both
thresholds are 70, `last_alert_time` is still 0. -/
def calibratedState : PostureState :=
  { calibration_shoulder_angles := List.replicate 30 80
    calibration_neck_angles := List.replicate 30 80
    calibration_frames := 30
    is_calibrated := true
    shoulder_threshold := 70
    neck_threshold := 70
    last_alert_time := 0 }

/-- Shoulder 65 / neck 75 at time 0 — poor posture against threshold 70. -/
def poorInput : FrameInput :=
  { pose_detected := true, shoulder_angle := 65, neck_angle := 75
    current_time := 0, sound_file_exists := false }

/-- Shoulder 75 / neck 75 at time 0 — good posture against threshold 70. -/
def goodInput : FrameInput :=
  { pose_detected := true, shoulder_angle := 75, neck_angle := 75
    current_time := 0, sound_file_exists := false }

/-! ## Angle-calculator lemmas -/

lemma pnorm_nonneg (u : Pt) : 0 ≤ pnorm u := by
  unfold pnorm; exact Real.sqrt_nonneg _

lemma denom_pos (u v : Pt) : 0 < pnorm u * pnorm v + eps := by
  have h1 := pnorm_nonneg u
  have h2 := pnorm_nonneg v
  have h3 : (0 : ℝ) < eps := by norm_num [eps]
  nlinarith

/-- C4: for any three 2D points, `calculate_angle` is a total function whose
denominator is strictly positive (the `1e-6` epsilon prevents division by
zero even for zero-length vectors) and whose value lies in [0, 180]
degrees; in this real-number model no error can be raised. -/
theorem calculate_angle_total_and_in_range (a b c : Pt) :
    0 < pnorm (vsub a b) * pnorm (vsub c b) + eps ∧
    0 ≤ calculate_angle a b c ∧ calculate_angle a b c ≤ 180 := by
  refine ⟨denom_pos _ _, ?_, ?_⟩
  · unfold calculate_angle degrees
    have h := Real.arccos_nonneg (clip
      (dot (vsub a b) (vsub c b) / (pnorm (vsub a b) * pnorm (vsub c b) + eps))
      (-1) 1)
    have hpi := Real.pi_pos
    positivity
  · unfold calculate_angle degrees
    have h := Real.arccos_le_pi (clip
      (dot (vsub a b) (vsub c b) / (pnorm (vsub a b) * pnorm (vsub c b) + eps))
      (-1) 1)
    rw [div_le_iff₀ Real.pi_pos]
    nlinarith [Real.pi_pos]

/-- C5: `calculate_angle` is symmetric under swapping its first and third
arguments: the dot product and the product of the two norms are both
commutative, so the cosine — and hence the angle — is unchanged. -/
theorem calculate_angle_symm (a b c : Pt) :
    calculate_angle a b c = calculate_angle c b a := by
  unfold calculate_angle
  have h1 : dot (vsub a b) (vsub c b) = dot (vsub c b) (vsub a b) := by
    simp only [dot, vsub]; ring
  have h2 : pnorm (vsub a b) * pnorm (vsub c b) =
      pnorm (vsub c b) * pnorm (vsub a b) := mul_comm _ _
  rw [h1, h2]

/-- C9: when BA or BC is the zero vector, the dot product is 0, the
epsilon-padded denominator is strictly positive, so the cosine is 0 and
`calculate_angle` returns exactly 90 degrees. -/
theorem calculate_angle_degenerate (a b c : Pt)
    (h : vsub a b = (0, 0) ∨ vsub c b = (0, 0)) :
    dot (vsub a b) (vsub c b) = 0 ∧
    0 < pnorm (vsub a b) * pnorm (vsub c b) + eps ∧
    calculate_angle a b c = 90 := by
  have hdot : dot (vsub a b) (vsub c b) = 0 := by
    rcases h with h | h <;> rw [h] <;> simp [dot]
  refine ⟨hdot, denom_pos _ _, ?_⟩
  unfold calculate_angle
  rw [hdot, zero_div]
  have hclip : clip 0 (-1) 1 = (0 : ℝ) := by unfold clip; norm_num
  rw [hclip, Real.arccos_zero]
  unfold degrees
  field_simp
  ring

/-- Witness for C9: with A = B = (0,0) and C = (1,0), vector BA is zero and
the computed angle is exactly 90 degrees. -/
theorem calculate_angle_degenerate_witness :
    calculate_angle ((0 : ℝ), (0 : ℝ)) (0, 0) (1, 0) = 90 :=
  (calculate_angle_degenerate (0, 0) (0, 0) (1, 0)
    (Or.inl (by simp [vsub]))).2.2

/-! ## Single-step characterization lemmas -/

lemma step_no_pose (s : PostureState) (f : FrameInput)
    (hp : f.pose_detected = false) :
    step s f = (s, ⟨false, false, none, false, false⟩) := by
  simp [step, hp]

lemma calibrationBranch_calibrated (s : PostureState) (f : FrameInput)
    (hc : s.is_calibrated = true) :
    calibrationBranch s f = (s, false, false) := by
  simp [calibrationBranch, hc]

/-- When already calibrated, a pose frame leaves the calibration state alone
and runs only the posture-detection branch. -/
lemma step_calibrated (s : PostureState) (f : FrameInput)
    (hc : s.is_calibrated = true) (hp : f.pose_detected = true) :
    step s f =
      if f.shoulder_angle < s.shoulder_threshold ∨
          f.neck_angle < s.neck_threshold then
        if f.current_time - s.last_alert_time > alert_cooldown then
          ({ s with last_alert_time := f.current_time },
           ⟨false, false, some "Poor Posture", true, f.sound_file_exists⟩)
        else
          (s, ⟨false, false, some "Poor Posture", false, false⟩)
      else
        (s, ⟨false, false, some "Good Posture", false, false⟩) := by
  simp [step, hp, calibrationBranch_calibrated s f hc, hc]

/-- A pose frame while collecting (fewer than 30 samples): the sample pair
is appended, the counter bumps, and nothing else happens. -/
lemma step_collecting (s : PostureState) (f : FrameInput)
    (hc : s.is_calibrated = false) (hlt : s.calibration_frames < 30)
    (hp : f.pose_detected = true) :
    step s f =
      ({ s with
          calibration_shoulder_angles :=
            s.calibration_shoulder_angles ++ [f.shoulder_angle]
          calibration_neck_angles :=
            s.calibration_neck_angles ++ [f.neck_angle]
          calibration_frames := s.calibration_frames + 1 },
       ⟨true, false, none, false, false⟩) := by
  simp [step, calibrationBranch, hp, hc, hlt]

/-- The first pose frame after the 30th sample: thresholds are set to
`mean - 10`, the flag is set, the completion line is printed, and — because
the flag assignment precedes the `if is_calibrated:` check in the source —
the posture branch already runs against the new thresholds. -/
lemma step_finalizing (s : PostureState) (f : FrameInput)
    (hc : s.is_calibrated = false) (hge : ¬ s.calibration_frames < 30)
    (hp : f.pose_detected = true) :
    step s f =
      if f.shoulder_angle < listMean s.calibration_shoulder_angles - 10 ∨
          f.neck_angle < listMean s.calibration_neck_angles - 10 then
        if f.current_time - s.last_alert_time > alert_cooldown then
          ({ s with
              shoulder_threshold := listMean s.calibration_shoulder_angles - 10
              neck_threshold := listMean s.calibration_neck_angles - 10
              is_calibrated := true
              last_alert_time := f.current_time },
           ⟨false, true, some "Poor Posture", true, f.sound_file_exists⟩)
        else
          ({ s with
              shoulder_threshold := listMean s.calibration_shoulder_angles - 10
              neck_threshold := listMean s.calibration_neck_angles - 10
              is_calibrated := true },
           ⟨false, true, some "Poor Posture", false, false⟩)
      else
        ({ s with
            shoulder_threshold := listMean s.calibration_shoulder_angles - 10
            neck_threshold := listMean s.calibration_neck_angles - 10
            is_calibrated := true },
         ⟨false, true, some "Good Posture", false, false⟩) := by
  simp [step, calibrationBranch, hp, hc, hge]

/-- A calibrated state is left untouched by a step, except possibly for
`last_alert_time`; no sample is appended and the completion line is not
printed again. -/
lemma step_calibrated_preserves (s : PostureState) (f : FrameInput)
    (hc : s.is_calibrated = true) :
    (step s f).1.calibration_shoulder_angles = s.calibration_shoulder_angles ∧
    (step s f).1.calibration_neck_angles = s.calibration_neck_angles ∧
    (step s f).1.calibration_frames = s.calibration_frames ∧
    (step s f).1.is_calibrated = true ∧
    (step s f).1.shoulder_threshold = s.shoulder_threshold ∧
    (step s f).1.neck_threshold = s.neck_threshold ∧
    (step s f).2.sample_appended = false ∧
    (step s f).2.calibration_logged = false := by
  by_cases hp : f.pose_detected = true
  · rw [step_calibrated s f hc hp]
    split_ifs <;> simp [hc]
  · rw [step_no_pose s f (by simpa using hp)]
    simp [hc]

/-- A sample is appended exactly on pose-detected frames while not yet
calibrated with fewer than 30 samples. -/
lemma step_appended_iff (s : PostureState) (f : FrameInput) :
    (step s f).2.sample_appended = true ↔
      (f.pose_detected = true ∧ s.is_calibrated = false ∧
        s.calibration_frames < 30) := by
  by_cases hp : f.pose_detected = true
  · by_cases hc : s.is_calibrated = true
    · have h := step_calibrated_preserves s f hc
      simp [h.2.2.2.2.2.2.1, hp, hc]
    · have hc' : s.is_calibrated = false := by simpa using hc
      by_cases hlt : s.calibration_frames < 30
      · rw [step_collecting s f hc' hlt hp]
        simp [hp, hc', hlt]
      · rw [step_finalizing s f hc' hlt hp]
        split_ifs <;> simp [hp, hc', hlt]
  · rw [step_no_pose s f (by simpa using hp)]
    simp [hp]

/-- The completion line is printed exactly on the first pose-detected frame
after the 30th sample. -/
lemma step_calLogged_iff (s : PostureState) (f : FrameInput) :
    (step s f).2.calibration_logged = true ↔
      (f.pose_detected = true ∧ s.is_calibrated = false ∧
        30 ≤ s.calibration_frames) := by
  by_cases hp : f.pose_detected = true
  · by_cases hc : s.is_calibrated = true
    · have h := step_calibrated_preserves s f hc
      simp [h.2.2.2.2.2.2.2, hp, hc]
    · have hc' : s.is_calibrated = false := by simpa using hc
      by_cases hlt : s.calibration_frames < 30
      · rw [step_collecting s f hc' hlt hp]
        simp [hp, hc']
        omega
      · rw [step_finalizing s f hc' hlt hp]
        split_ifs <;> simp [hp, hc'] <;> omega
  · rw [step_no_pose s f (by simpa using hp)]
    simp [hp]

/-- The sample counter bumps by one exactly when a sample is appended. -/
lemma step_frames (s : PostureState) (f : FrameInput) :
    (step s f).1.calibration_frames =
      s.calibration_frames +
        (if (step s f).2.sample_appended = true then 1 else 0) := by
  by_cases hp : f.pose_detected = true
  · by_cases hc : s.is_calibrated = true
    · have h := step_calibrated_preserves s f hc
      simp [h.2.2.1, h.2.2.2.2.2.2.1]
    · have hc' : s.is_calibrated = false := by simpa using hc
      by_cases hlt : s.calibration_frames < 30
      · rw [step_collecting s f hc' hlt hp]
        simp
      · rw [step_finalizing s f hc' hlt hp]
        split_ifs <;> simp_all
  · rw [step_no_pose s f (by simpa using hp)]
    simp

/-- The calibrated flag never goes back to false, and it becomes true
exactly when the completion line is printed. -/
lemma step_calibrated_iff (s : PostureState) (f : FrameInput) :
    ((step s f).1.is_calibrated = true ↔
      (s.is_calibrated = true ∨ (step s f).2.calibration_logged = true)) := by
  by_cases hp : f.pose_detected = true
  · by_cases hc : s.is_calibrated = true
    · have h := step_calibrated_preserves s f hc
      simp [h.2.2.2.1, hc]
    · have hc' : s.is_calibrated = false := by simpa using hc
      by_cases hlt : s.calibration_frames < 30
      · rw [step_collecting s f hc' hlt hp]
        simp [hc']
      · rw [step_finalizing s f hc' hlt hp]
        split_ifs <;> simp [hc']
  · rw [step_no_pose s f (by simpa using hp)]
    simp [hp]

lemma inv_initState : Inv initState := by
  simp [Inv, initState]

lemma inv_step (s : PostureState) (f : FrameInput) (h : Inv s) :
    Inv (step s f).1 := by
  obtain ⟨h1, h2, h3, h4, h5, h6⟩ := h
  by_cases hp : f.pose_detected = true
  · by_cases hc : s.is_calibrated = true
    · obtain ⟨l1, l2, l3, l4, l5, l6, _, _⟩ := step_calibrated_preserves s f hc
      refine ⟨?_, ?_, ?_, ?_, ?_, ?_⟩
      · rw [l1, l3]; exact h1
      · rw [l2, l3]; exact h2
      · rw [l3]; exact h3
      · intro _; rw [l3]; exact h4 hc
      · rw [l5, l1, l4]; simpa [hc] using h5
      · rw [l6, l2, l4]; simpa [hc] using h6
    · have hc' : s.is_calibrated = false := by simpa using hc
      by_cases hlt : s.calibration_frames < 30
      · rw [step_collecting s f hc' hlt hp]
        refine ⟨?_, ?_, ?_, ?_, ?_, ?_⟩
        · simp [h1]
        · simp [h2]
        · simp; omega
        · simp [hc']
        · simpa [hc'] using h5
        · simpa [hc'] using h6
      · rw [step_finalizing s f hc' hlt hp]
        split_ifs <;>
          exact ⟨by simpa using h1, by simpa using h2, by simpa using h3,
            fun _ => by simp; omega, by simp, by simp⟩
  · rw [step_no_pose s f (by simpa using hp)]
    exact ⟨h1, h2, h3, h4, h5, h6⟩

/-! ## Run-level lemmas -/

lemma runFrom_nil (s : PostureState) : runFrom s [] = (s, []) := rfl

lemma runFrom_cons (s : PostureState) (f : FrameInput) (fs : List FrameInput) :
    runFrom s (f :: fs) =
      ((runFrom (step s f).1 fs).1, (step s f).2 :: (runFrom (step s f).1 fs).2) :=
  rfl

lemma inv_runFrom (s : PostureState) (fs : List FrameInput) (h : Inv s) :
    Inv (runFrom s fs).1 := by
  induction fs generalizing s with
  | nil => exact h
  | cons f fs ih => rw [runFrom_cons]; exact ih (step s f).1 (inv_step s f h)

/-- The number of frames on which a sample was appended accounts exactly
for the growth of the sample counter. -/
lemma runFrom_appended_count (s : PostureState) (fs : List FrameInput) :
    (runFrom s fs).1.calibration_frames =
      s.calibration_frames +
        (runFrom s fs).2.countP (fun o => o.sample_appended) := by
  induction fs generalizing s with
  | nil => simp [runFrom_nil]
  | cons f fs ih =>
    rw [runFrom_cons]
    simp only [List.countP_cons]
    rw [ih (step s f).1]
    have h := step_frames s f
    by_cases hb : (step s f).2.sample_appended = true <;> simp [hb] at h ⊢ <;> omega

/-- Once calibrated, a run changes nothing but `last_alert_time` and never
prints the completion line again. -/
lemma runFrom_calibrated (s : PostureState) (fs : List FrameInput)
    (hc : s.is_calibrated = true) :
    (runFrom s fs).1.calibration_shoulder_angles = s.calibration_shoulder_angles ∧
    (runFrom s fs).1.calibration_neck_angles = s.calibration_neck_angles ∧
    (runFrom s fs).1.calibration_frames = s.calibration_frames ∧
    (runFrom s fs).1.is_calibrated = true ∧
    (runFrom s fs).1.shoulder_threshold = s.shoulder_threshold ∧
    (runFrom s fs).1.neck_threshold = s.neck_threshold ∧
    (runFrom s fs).2.countP (fun o => o.calibration_logged) = 0 := by
  induction fs generalizing s with
  | nil => simp [runFrom_nil, hc]
  | cons f fs ih =>
    obtain ⟨l1, l2, l3, l4, l5, l6, _, l8⟩ := step_calibrated_preserves s f hc
    rw [runFrom_cons]
    obtain ⟨m1, m2, m3, m4, m5, m6, m7⟩ := ih (step s f).1 l4
    refine ⟨by rw [m1, l1], by rw [m2, l2], by rw [m3, l3], m4,
      by rw [m5, l5], by rw [m6, l6], ?_⟩
    simp [List.countP_cons, l8, m7]

/-- Starting not yet calibrated, the completion line is printed exactly
once if the run ends calibrated, and never otherwise. -/
lemma runFrom_calLogged_count (s : PostureState) (fs : List FrameInput)
    (hc : s.is_calibrated = false) :
    (runFrom s fs).2.countP (fun o => o.calibration_logged) =
      if (runFrom s fs).1.is_calibrated = true then 1 else 0 := by
  induction fs generalizing s with
  | nil => simp [runFrom_nil, hc]
  | cons f fs ih =>
    rw [runFrom_cons]
    by_cases h1 : (step s f).1.is_calibrated = true
    · have hlog : (step s f).2.calibration_logged = true := by
        rcases (step_calibrated_iff s f).1 h1 with h | h
        · rw [hc] at h; cases h
        · exact h
      obtain ⟨_, _, _, m4, _, _, m7⟩ := runFrom_calibrated (step s f).1 fs h1
      simp [List.countP_cons, hlog, m7, m4]
    · have h1' : (step s f).1.is_calibrated = false := by simpa using h1
      have hlog : (step s f).2.calibration_logged = false := by
        by_contra hx
        have hx' : (step s f).2.calibration_logged = true := by simpa using hx
        exact h1 ((step_calibrated_iff s f).2 (Or.inr hx'))
      simp [List.countP_cons, hlog, ih (step s f).1 h1']

/-! ## Concrete-run evaluations -/

/-- Evaluating the 31-frame constant-angle session: the 31st frame
finalizes calibration with both thresholds `80 - 10 = 70`, and the 30 raw
samples are still held in the state. -/
lemma run_calibFrames31_eval :
    (run calibFrames31).1.shoulder_threshold = 70 ∧
    (run calibFrames31).1.is_calibrated = true ∧
    (run calibFrames31).1.calibration_shoulder_angles =
      List.replicate 30 80 := by
  norm_num [run, runFrom, step, calibrationBranch, listMean, initState,
    alert_cooldown, calibFrames31, constFrame80, List.replicate]

/-- Evaluating three consecutive poor-posture frames at t = 11, 16, 22
from the calibrated state: fire, suppress (16 - 11 = 5 ≤ 10), fire
(22 - 11 = 11 > 10). -/
lemma run_alert_scenario_eval :
    (runFrom calibratedState [poorAt 11, poorAt 16, poorAt 22]).2.map
      (fun o => o.alert_logged) = [true, false, true] := by
  norm_num [runFrom, step, calibrationBranch, listMean,
    alert_cooldown, calibratedState, poorAt, List.replicate]

/-! ## Claim theorems -/

/-- C1: in every session, samples are appended one per pose-detected frame
while collecting (skipped frames append nothing) so the appended count
equals the counter and never exceeds 30; the two sample lists grow in
lockstep with the counter; the completion line is printed exactly once,
namely iff the session ends calibrated; once calibrated the counter is
exactly 30 and each threshold is `mean(its samples) - 10`; a sample is
appended exactly on pose-detected not-yet-calibrated frames with fewer
than 30 samples, and the finalizing transition happens exactly on the
first pose-detected frame after the 30th sample; 30 samples of angle 80
yield shoulder_threshold 70. -/
theorem calibration_tracker_correct (fs : List FrameInput) :
    (run fs).2.countP (fun o => o.sample_appended) =
      (run fs).1.calibration_frames ∧
    (run fs).1.calibration_frames ≤ 30 ∧
    (run fs).1.calibration_shoulder_angles.length =
      (run fs).1.calibration_frames ∧
    (run fs).1.calibration_neck_angles.length =
      (run fs).1.calibration_frames ∧
    ((run fs).2.countP (fun o => o.calibration_logged) =
      if (run fs).1.is_calibrated = true then 1 else 0) ∧
    ((run fs).1.is_calibrated = true →
      (run fs).1.calibration_frames = 30 ∧
      (run fs).1.shoulder_threshold =
        listMean (run fs).1.calibration_shoulder_angles - 10 ∧
      (run fs).1.neck_threshold =
        listMean (run fs).1.calibration_neck_angles - 10) ∧
    (∀ (s : PostureState) (f : FrameInput),
      ((step s f).2.sample_appended = true ↔
        (f.pose_detected = true ∧ s.is_calibrated = false ∧
          s.calibration_frames < 30)) ∧
      ((step s f).2.calibration_logged = true ↔
        (f.pose_detected = true ∧ s.is_calibrated = false ∧
          30 ≤ s.calibration_frames))) ∧
    (run calibFrames31).1.shoulder_threshold = 70 := by
  obtain ⟨h1, h2, h3, h4, h5, h6⟩ := inv_runFrom initState fs inv_initState
  have hcount := runFrom_appended_count initState fs
  have hlog := runFrom_calLogged_count initState fs rfl
  have h0 : initState.calibration_frames = 0 := rfl
  refine ⟨?_, h3, h1, h2, hlog, ?_, ?_, run_calibFrames31_eval.1⟩
  · show (runFrom initState fs).2.countP (fun o => o.sample_appended) =
      (runFrom initState fs).1.calibration_frames
    omega
  · intro hcal
    have hcal' : (runFrom initState fs).1.is_calibrated = true := hcal
    exact ⟨h4 hcal, by simpa [hcal'] using h5, by simpa [hcal'] using h6⟩
  · exact fun s f => ⟨step_appended_iff s f, step_calLogged_iff s f⟩

/-- Witness for C1, at the concrete 31-frame session: the session ends
calibrated with exactly 30 samples and shoulder threshold 70. -/
theorem calibration_tracker_correct_witness :
    (run calibFrames31).1.calibration_frames = 30 ∧
    (run calibFrames31).1.shoulder_threshold = 70 := by
  have h := calibration_tracker_correct calibFrames31
  exact ⟨(h.2.2.2.2.2.1 run_calibFrames31_eval.2.1).1, h.2.2.2.2.2.2.2⟩

/-- C2: on a calibrated pose-detected frame the classifier yields
"Poor Posture" iff `shoulder_angle < shoulder_threshold` or
`neck_angle < neck_threshold`, and "Good Posture" otherwise. -/
theorem posture_classifier_correct (s : PostureState) (f : FrameInput)
    (hc : s.is_calibrated = true) (hp : f.pose_detected = true) :
    ((step s f).2.status = some "Poor Posture" ↔
      (f.shoulder_angle < s.shoulder_threshold ∨
        f.neck_angle < s.neck_threshold)) ∧
    ((step s f).2.status = some "Good Posture" ↔
      ¬(f.shoulder_angle < s.shoulder_threshold ∨
        f.neck_angle < s.neck_threshold)) := by
  rw [step_calibrated s f hc hp]
  split_ifs with h1 h2 <;> simp_all

/-- Witness for C2: with thresholds 70, shoulder 65 / neck 75 yields
"Poor Posture" and shoulder 75 / neck 75 yields "Good Posture". -/
theorem posture_classifier_correct_witness :
    (step calibratedState poorInput).2.status = some "Poor Posture" ∧
    (step calibratedState goodInput).2.status = some "Good Posture" := by
  constructor
  · exact (posture_classifier_correct calibratedState poorInput rfl rfl).1.mpr
      (Or.inl (by norm_num [poorInput, calibratedState]))
  · exact (posture_classifier_correct calibratedState goodInput rfl rfl).2.mpr
      (by norm_num [goodInput, calibratedState])

/-- Counterexample to C3 as stated: calibrate on 30 frames at angle 80
(thresholds 70), then a first poor-posture frame at t = 0. The claim says
this frame fires; in the code `last_alert_time` is initialized to 0, so
`0 - 0 > 10` fails and no alert fires on any frame of the session — the
frame is classified "Poor Posture" but `alert_logged` is false. -/
theorem first_poor_frame_at_time_zero_does_not_fire :
    (run calibThenPoor0).2.map (fun o => (o.status, o.alert_logged)) =
      List.replicate 30 (none, false) ++ [(some "Poor Posture", false)] := by
  norm_num [run, runFrom, step, calibrationBranch, listMean, initState,
    alert_cooldown, calibThenPoor0, constFrame80, poorAt, List.replicate]

/-- C3 (amended): on a calibrated poor-posture frame an alert fires exactly
when `now - last_alert_time > cooldown`; firing sets `last_alert_time :=
now`, suppression leaves it unchanged. Because `last_alert_time` starts at
0, a first poor-posture frame at t = 0 does not fire; for example poor
frames at t = 11, 16, 22 fire, suppress, and fire again. -/
theorem alert_limiter_cooldown (s : PostureState) (f : FrameInput)
    (hc : s.is_calibrated = true) (hp : f.pose_detected = true)
    (hpoor : f.shoulder_angle < s.shoulder_threshold ∨
      f.neck_angle < s.neck_threshold) :
    ((step s f).2.alert_logged = true ↔
      f.current_time - s.last_alert_time > alert_cooldown) ∧
    ((step s f).2.alert_logged = true →
      (step s f).1.last_alert_time = f.current_time) ∧
    ((step s f).2.alert_logged = false →
      (step s f).1.last_alert_time = s.last_alert_time) ∧
    (runFrom calibratedState [poorAt 11, poorAt 16, poorAt 22]).2.map
      (fun o => o.alert_logged) = [true, false, true] := by
  have hsc := run_alert_scenario_eval
  rw [step_calibrated s f hc hp, if_pos hpoor]
  split_ifs with h2
  · exact ⟨by simp [h2], by simp, by simp, hsc⟩
  · exact ⟨by simp [h2], by simp, by simp, hsc⟩

/-- Witness for C3 (amended): from the calibrated state a poor-posture
frame at t = 11 fires the alert. -/
theorem alert_limiter_cooldown_witness :
    (step calibratedState (poorAt 11)).2.alert_logged = true :=
  (alert_limiter_cooldown calibratedState (poorAt 11) rfl rfl
    (Or.inl (by norm_num [poorAt, calibratedState]))).1.mpr
    (by norm_num [poorAt, calibratedState, alert_cooldown])

/-- C6: when an alert is due on a calibrated poor-posture frame and the
sound file does not exist, the alert line is still printed and the status
"Poor Posture" is still shown, but the sound is not played — the
existence check precedes playback and no error is raised. -/
theorem missing_sound_file_skips_playback (s : PostureState)
    (f : FrameInput) (hc : s.is_calibrated = true)
    (hp : f.pose_detected = true)
    (hpoor : f.shoulder_angle < s.shoulder_threshold ∨
      f.neck_angle < s.neck_threshold)
    (hdue : f.current_time - s.last_alert_time > alert_cooldown)
    (hsnd : f.sound_file_exists = false) :
    (step s f).2.alert_logged = true ∧
    (step s f).2.sound_played = false ∧
    (step s f).2.status = some "Poor Posture" := by
  rw [step_calibrated s f hc hp, if_pos hpoor, if_pos hdue]
  simp [hsnd]

/-- Witness for C6: a due poor-posture frame at t = 100 with no sound
file logs the alert, plays nothing, and shows "Poor Posture". -/
theorem missing_sound_file_skips_playback_witness :
    (step calibratedState (poorAt 100)).2.alert_logged = true ∧
    (step calibratedState (poorAt 100)).2.sound_played = false ∧
    (step calibratedState (poorAt 100)).2.status = some "Poor Posture" :=
  missing_sound_file_skips_playback calibratedState (poorAt 100) rfl rfl
    (Or.inl (by norm_num [poorAt, calibratedState]))
    (by norm_num [poorAt, calibratedState, alert_cooldown]) rfl

/-- Counterexample to C7 as stated: in the session of 30 collecting frames
at angle 80 followed by a poor frame at t = 100, the 31st frame performs
the finalizing transition (`calibration_logged = true`) and nevertheless
already produces the status "Poor Posture" and a fired alert on that same
frame — the claim says pre-calibration frames, the finalizing one
included, produce no status and no alert. -/
theorem finalizing_frame_produces_status_and_alert :
    (run calibThenPoor100).2.map
        (fun o => (o.calibration_logged, o.status, o.alert_logged)) =
      List.replicate 30 (false, none, false) ++
        [(true, some "Poor Posture", true)] := by
  norm_num [run, runFrom, step, calibrationBranch, listMean, initState,
    alert_cooldown, calibThenPoor100, constFrame80, poorAt, List.replicate]

/-- C7 (amended): a status or alert is produced only on frames on which
the calibrated flag is true by the time of the posture check; frames that
end not calibrated (pose-skipped and collecting frames) produce no status,
no alert and no sound, and a sample-collecting frame never produces a
status or alert. On the finalizing frame itself the flag is set before
the check, so that frame can already produce a status and an alert. -/
theorem classification_gated_by_calibration (s : PostureState)
    (f : FrameInput) :
    ((step s f).1.is_calibrated = false →
      (step s f).2.status = none ∧ (step s f).2.alert_logged = false ∧
      (step s f).2.sound_played = false) ∧
    ((step s f).2.status ≠ none → (step s f).1.is_calibrated = true) ∧
    ((step s f).2.sample_appended = true →
      (step s f).2.status = none ∧ (step s f).2.alert_logged = false) := by
  by_cases hp : f.pose_detected = true
  · by_cases hc : s.is_calibrated = true
    · rw [step_calibrated s f hc hp]
      split_ifs <;> simp [hc]
    · have hc' : s.is_calibrated = false := by simpa using hc
      by_cases hlt : s.calibration_frames < 30
      · rw [step_collecting s f hc' hlt hp]
        simp [hc']
      · rw [step_finalizing s f hc' hlt hp]
        split_ifs <;> simp
  · rw [step_no_pose s f (by simpa using hp)]
    simp

/-- Witness for C7 (amended): the first frame of a session appends a
sample and produces neither status nor alert. -/
theorem classification_gated_by_calibration_witness :
    (step initState constFrame80).2.status = none ∧
    (step initState constFrame80).2.alert_logged = false :=
  (classification_gated_by_calibration initState constFrame80).2.2
    (by norm_num [step, calibrationBranch, initState, constFrame80])

/-- Counterexample to C8 as stated: at the end of the 31-frame session —
after calibration was finalized — the raw sample list still exists in the
program state, holding all 30 samples; it is never discarded. -/
theorem calibration_samples_not_discarded :
    (run calibFrames31).1.is_calibrated = true ∧
    (run calibFrames31).1.calibration_shoulder_angles =
      List.replicate 30 80 ∧
    (run calibFrames31).1.calibration_shoulder_angles ≠ [] := by
  refine ⟨run_calibFrames31_eval.2.1, run_calibFrames31_eval.2.2, ?_⟩
  rw [run_calibFrames31_eval.2.2]
  simp

/-- C8 (amended): once calibrated, the two thresholds persist unchanged
for the remainder of the session; the raw sample lists are no longer
appended to, but they also persist unchanged in program state rather than
being discarded. -/
theorem calibrated_session_state_frozen (s : PostureState)
    (fs : List FrameInput) (hc : s.is_calibrated = true) :
    (runFrom s fs).1.shoulder_threshold = s.shoulder_threshold ∧
    (runFrom s fs).1.neck_threshold = s.neck_threshold ∧
    (runFrom s fs).1.is_calibrated = true ∧
    (runFrom s fs).1.calibration_shoulder_angles =
      s.calibration_shoulder_angles ∧
    (runFrom s fs).1.calibration_neck_angles =
      s.calibration_neck_angles := by
  obtain ⟨m1, m2, m3, m4, m5, m6, _⟩ := runFrom_calibrated s fs hc
  exact ⟨m5, m6, m4, m1, m2⟩

/-- Witness for C8 (amended): from the calibrated state, one more poor
frame leaves the threshold at 70 and the 30 samples in place. -/
theorem calibrated_session_state_frozen_witness :
    (runFrom calibratedState [poorAt 11]).1.shoulder_threshold = 70 ∧
    (runFrom calibratedState [poorAt 11]).1.calibration_shoulder_angles =
      List.replicate 30 80 := by
  have h := calibrated_session_state_frozen calibratedState [poorAt 11] rfl
  exact ⟨h.1, h.2.2.2.1⟩

/-- C10: the state reached after a frame — `last_alert_time` included —
and the decision to log an alert are independent of whether the sound
file exists; whenever an alert fires, `last_alert_time` is set to the
frame's current time. -/
theorem alert_rate_limit_sound_independent (s : PostureState)
    (f : FrameInput) (b : Bool) :
    (step s { f with sound_file_exists := b }).1 = (step s f).1 ∧
    (step s { f with sound_file_exists := b }).2.alert_logged =
      (step s f).2.alert_logged ∧
    ((step s f).2.alert_logged = true →
      (step s f).1.last_alert_time = f.current_time) := by
  by_cases hp : f.pose_detected = true
  · by_cases hc : s.is_calibrated = true
    · rw [step_calibrated s f hc hp,
        step_calibrated s { f with sound_file_exists := b } hc hp]
      by_cases hpoor : f.shoulder_angle < s.shoulder_threshold ∨
          f.neck_angle < s.neck_threshold
      · rw [if_pos hpoor, if_pos hpoor]
        by_cases hdue : f.current_time - s.last_alert_time > alert_cooldown
        · rw [if_pos hdue, if_pos hdue]
          exact ⟨rfl, rfl, fun _ => rfl⟩
        · rw [if_neg hdue, if_neg hdue]
          exact ⟨rfl, rfl, by simp⟩
      · rw [if_neg hpoor, if_neg hpoor]
        exact ⟨rfl, rfl, by simp⟩
    · have hc' : s.is_calibrated = false := by simpa using hc
      by_cases hlt : s.calibration_frames < 30
      · rw [step_collecting s f hc' hlt hp,
          step_collecting s { f with sound_file_exists := b } hc' hlt hp]
        exact ⟨rfl, rfl, by simp⟩
      · rw [step_finalizing s f hc' hlt hp,
          step_finalizing s { f with sound_file_exists := b } hc' hlt hp]
        by_cases hpoor : f.shoulder_angle <
            listMean s.calibration_shoulder_angles - 10 ∨
            f.neck_angle < listMean s.calibration_neck_angles - 10
        · rw [if_pos hpoor, if_pos hpoor]
          by_cases hdue : f.current_time - s.last_alert_time > alert_cooldown
          · rw [if_pos hdue, if_pos hdue]
            exact ⟨rfl, rfl, fun _ => rfl⟩
          · rw [if_neg hdue, if_neg hdue]
            exact ⟨rfl, rfl, by simp⟩
        · rw [if_neg hpoor, if_neg hpoor]
          exact ⟨rfl, rfl, by simp⟩
  · rw [step_no_pose s f (by simpa using hp),
      step_no_pose s { f with sound_file_exists := b } (by simpa using hp)]
    exact ⟨rfl, rfl, by simp⟩

/-- Witness for C10: a fired alert at t = 11 sets `last_alert_time` to 11,
and the successor state is the same whether or not the sound file exists. -/
theorem alert_rate_limit_sound_independent_witness :
    (step calibratedState { poorAt 11 with sound_file_exists := true }).1 =
      (step calibratedState (poorAt 11)).1 ∧
    (step calibratedState (poorAt 11)).1.last_alert_time = 11 := by
  have h := alert_rate_limit_sound_independent calibratedState (poorAt 11) true
  refine ⟨h.1, ?_⟩
  have hfired : (step calibratedState (poorAt 11)).2.alert_logged = true := by
    norm_num [step, calibrationBranch, calibratedState, poorAt, alert_cooldown]
  exact h.2.2 hfired

end Posture
